import Mathlib

/-!
Verification of the batch orchestrator `GenerateAndLoadData`
(`cumulusci/tasks/bulkdata/generate_and_load_data.py`): a shallow embedding of
its option handling (`_init_options`), its batch loop (`_run_task`), the
per-batch procedure (`_generate_batch`), and the table-lifecycle helpers
(`_setup_engine`, `_cleanup_object_tables`), together with theorems about the
batching partition, table dropping, option derivation, scratch-file release
and error propagation.
-/

namespace GenerateAndLoadData

/-- A Python option value as the orchestrator sees it: a string, an integer,
a boolean, or `None` (also standing for an absent `.get` result). -/
inductive OptVal where
  | vStr : String → OptVal
  | vInt : Int → OptVal
  | vBool : Bool → OptVal
  | vNone : OptVal
deriving DecidableEq, Repr

/-- Python truthiness of an option value (`if value:`). -/
def OptVal.truthy : OptVal → Bool
  | .vStr s => !s.isEmpty
  | .vInt n => decide (n ≠ 0)
  | .vBool b => b
  | .vNone => false

/-- Python `int(value)`: integers pass through, strings are parsed (failure is
a `ValueError`), booleans coerce to 0/1, `None` fails. -/
def OptVal.toInt? : OptVal → Option Int
  | .vStr s => s.toInt?
  | .vInt n => some n
  | .vBool b => some (if b then 1 else 0)
  | .vNone => none

/-- The raw string payload of an option value (used where the Python code
interpolates the value into a path or URL). -/
def OptVal.strVal : OptVal → String
  | .vStr s => s
  | .vInt n => toString n
  | .vBool b => toString b
  | .vNone => ""

/-- An options dictionary (`self.options` and the derived subtask options):
a partial map from option name to value. -/
abbrev Options := String → Option OptVal

/-- Dictionary update: `d[k] = v` (also the effect of `{**d, k: v}`). -/
def setOpt (o : Options) (k : String) (v : OptVal) : Options :=
  fun key => if key = k then some v else o key

/-- Python `d.get(k)`: the stored value, or `None` when the key is absent. -/
def getOpt (o : Options) (k : String) : OptVal :=
  (o k).getD .vNone

/-- The exceptions the orchestrator's setup and batch loop can surface. -/
inductive PyError where
  | taskOptionsError : String → PyError
  | valueError : PyError
  | keyError : PyError
  | typeError : PyError
  | importError : PyError
  | stepError : String → PyError
deriving DecidableEq, Repr

/-- The environment `_init_options` consults: the filesystem for the mapping
path, the reflected schema of a caller-supplied database, and whether
`import_global` resolves the configured generation-task path. -/
structure InitEnv where
  abspath : String → String
  pathExists : String → Bool
  reflectedTables : String → List String
  importOk : String → Bool

/-- The state `_init_options` leaves on `self` for `_run_task` to use. -/
structure Config where
  options : Options
  mapping_file : Option String
  database_url : OptVal
  num_records : Int
  batch_size : Int
  debug_dir : OptVal

/-- The mapping-option check of `_init_options`: when `mapping` is truthy,
take its absolute path and require it to exist on disk. -/
def checkMapping (env : InitEnv) (o : Options) : Except PyError (Option String) :=
  let m := getOpt o "mapping"
  if m.truthy then
    match m with
    | .vStr s =>
        let ab := env.abspath s
        if env.pathExists ab then .ok (some ab)
        else .error (.taskOptionsError (ab ++ " cannot be found."))
    | _ => .error .typeError
  else .ok none

/-- `int(self.options["num_records"])`: a missing key raises, an unparseable
value raises. -/
def parseNumRecords (o : Options) : Except PyError Int :=
  match o "num_records" with
  | none => .error .keyError
  | some v =>
    match v.toInt? with
    | none => .error .valueError
    | some n => .ok n

/-- `int(self.options.get("batch_size", self.num_records))`. -/
def parseBatchSize (o : Options) (num_records : Int) : Except PyError Int :=
  match o "batch_size" with
  | none => .ok num_records
  | some v =>
    match v.toInt? with
    | none => .error .valueError
    | some n => .ok n

/-- `import_global(self.options.get("data_generation_task"))`: the option must
be a string naming an importable class. -/
def resolveDataGenerationTask (env : InitEnv) (o : Options) : Except PyError String :=
  match getOpt o "data_generation_task" with
  | .vStr s => if env.importOk s then .ok s else .error .importError
  | _ => .error .importError

/-- `_init_options`, in the order the source performs its steps: mapping
check, `num_records` coercion, `batch_size` coercion and positivity check,
generation-task import, then — only when `database_url` is truthy — schema
reflection and the destructive-reuse check against `replace_database`. -/
def init_options (env : InitEnv) (o : Options) : Except PyError Config :=
  match checkMapping env o with
  | .error e => .error e
  | .ok mapping_file =>
    match parseNumRecords o with
    | .error e => .error e
    | .ok num_records =>
      match parseBatchSize o num_records with
      | .error e => .error e
      | .ok batch_size =>
        if batch_size ≤ 0 then
          .error (.taskOptionsError "Batch size should be greater than zero")
        else
          match resolveDataGenerationTask env o with
          | .error e => .error e
          | .ok _ =>
            let dbv := getOpt o "database_url"
            if dbv.truthy then
              match dbv with
              | .vStr url =>
                if !(env.reflectedTables url).isEmpty
                    ∧ (getOpt o "replace_database").truthy = false then
                  .error (.taskOptionsError
                    ("Database " ++ url ++ " has tables but replace_database was not specified"))
                else
                  .ok ⟨o, mapping_file, dbv, num_records, batch_size, getOpt o "debug_dir"⟩
              | _ => .error .typeError
            else
              .ok ⟨o, mapping_file, dbv, num_records, batch_size, getOpt o "debug_dir"⟩

/-- Modelled from the spec: the partitioning helper `generate_batches` is
imported from `cumulusci.tasks.bulkdata.utils`, whose code is not among the
source files. The spec's partitioning algorithm: given total N and batch size
B, produce batches of size B repeated floor(N/B) times, followed by one final
batch of size N mod B if non-zero, indices 0, 1, 2, .... -/
def generate_batches (n b : Nat) : List (Nat × Nat) :=
  (List.range (n / b)).map (fun i => (b, i)) ++
    (if n % b ≠ 0 then [(n % b, n / b)] else [])

/-- The batch sizes of the partition, in order. -/
def batchSizes (n b : Nat) : List Nat := (generate_batches n b).map Prod.fst

theorem batchSizes_eq (n b : Nat) :
    batchSizes n b = List.replicate (n / b) b ++ (if n % b ≠ 0 then [n % b] else []) := by
  unfold batchSizes generate_batches
  rw [List.map_append, List.map_map]
  congr 1
  · simp [Function.comp, List.map_const']
  · split <;> simp

theorem batchSizes_sum (n b : Nat) : (batchSizes n b).sum = n := by
  rw [batchSizes_eq, List.sum_append, List.sum_replicate, smul_eq_mul]
  by_cases h : n % b = 0
  · simp [h]
    exact Nat.div_mul_cancel (Nat.dvd_of_mod_eq_zero h)
  · simp [h]
    exact Nat.div_add_mod' n b

theorem batchSizes_le (n b : Nat) (hb : 0 < b) : ∀ s ∈ batchSizes n b, s ≤ b := by
  intro s hs
  rw [batchSizes_eq] at hs
  rcases List.mem_append.mp hs with h | h
  · exact le_of_eq (List.eq_of_mem_replicate h)
  · rcases Decidable.em (n % b ≠ 0) with hrem | hrem
    · rw [if_pos hrem, List.mem_singleton] at h
      exact h ▸ le_of_lt (Nat.mod_lt n hb)
    · rw [if_neg hrem] at h
      exact absurd h (List.not_mem_nil s)

theorem batchSizes_dropLast (n b : Nat) : ∀ s ∈ (batchSizes n b).dropLast, s = b := by
  intro s hs
  rw [batchSizes_eq] at hs
  rcases Decidable.em (n % b ≠ 0) with hrem | hrem
  · rw [if_pos hrem, List.dropLast_concat] at hs
    exact List.eq_of_mem_replicate hs
  · rw [if_neg hrem, List.append_nil] at hs
    exact List.eq_of_mem_replicate (List.dropLast_sublist _ |>.mem hs)

theorem generate_batches_indices (n b : Nat) :
    (generate_batches n b).map Prod.snd = List.range (generate_batches n b).length := by
  unfold generate_batches
  rcases Decidable.em (n % b ≠ 0) with hrem | hrem
  · rw [if_pos hrem]
    simp [List.map_map, Function.comp, List.range_succ]
  · rw [if_neg hrem]
    simp [List.map_map, Function.comp]

theorem generate_batches_zero (b : Nat) : generate_batches 0 b = [] := by
  unfold generate_batches
  simp [Nat.zero_div, Nat.zero_mod]

/-- The observable operations of one run: schema reflection (`_setup_engine`),
the `drop_all` call of `_cleanup_object_tables`, the invocation of the
generation subtask, the invocation of the load subtask, and the closing of the
scratch mapping tempfile when its `with` block exits. -/
inductive Event where
  | reflect : String → Event
  | dropTables : List String → Event
  | datagen : Options → Event
  | dataload : Options → Event
  | releaseScratch : String → Event

/-- The environment of a run: what the staging database reflects at each
batch, which operations raise at which batch, the name the scratch tempfile
gets at each batch, and the name of the run's temporary directory. -/
structure RunEnv where
  tablesAt : String → Nat → List String
  reflectFailsAt : String → Nat → Bool
  dropFailsAt : Nat → Bool
  datagenFailsAt : Nat → Bool
  dataloadFailsAt : Nat → Bool
  scratchPath : Nat → String
  tempdirName : String

/-- The head of `_generate_batch`: a falsy `database_url` is replaced by a
sqlite URL over `generated_data.db` inside the scoped directory. -/
def resolve_database_url (database_url : OptVal) (tempdir : String) : String :=
  if database_url.truthy then database_url.strVal
  else "sqlite:///" ++ tempdir ++ "/generated_data.db"

/-- Python `tablename.endswith(suffix)`: a character-level suffix test. -/
def endswith (t sfx : String) : Bool := sfx.data.isSuffixOf t.data

/-- `_cleanup_object_tables`: the tables to drop are all reflected tables
whose names do not end with "sf_ids". -/
def tables_to_drop (tables : List String) : List String :=
  tables.filter (fun t => !endswith t "sf_ids")

/-- The events `_cleanup_object_tables` produces: `drop_all` is only called
when there is something to drop. -/
def cleanupEvents (tables : List String) : List Event :=
  if (tables_to_drop tables).isEmpty then [] else [.dropTables (tables_to_drop tables)]

/-- The derived option dictionary `_generate_batch` builds:
`{**self.options, "mapping": mapping_file, "reset_oids": False,
"database_url": database_url, "num_records": batch_size,
"current_batch_number": index, "working_directory": tempdir,
"reset_oids": False}`. -/
def subtask_options (opts : Options) (mapping_file : Option String)
    (database_url : String) (batch_size index : Nat) (tempdir : String) : Options :=
  setOpt (setOpt (setOpt (setOpt (setOpt (setOpt opts
    "mapping" (match mapping_file with | some s => .vStr s | none => .vNone))
    "reset_oids" (.vBool false))
    "database_url" (.vStr database_url))
    "num_records" (.vInt batch_size))
    "current_batch_number" (.vInt index))
    "working_directory" (.vStr tempdir)

/-- The options the generation subtask receives: the derived dictionary with
the scratch path stored under `generate_mapping_file`. -/
def datagenOpts (opts : Options) (mapping_file : Option String) (url : String)
    (batch_size index : Nat) (tempdir scratch : String) : Options :=
  setOpt (subtask_options opts mapping_file url batch_size index tempdir)
    "generate_mapping_file" (.vStr scratch)

/-- `if not subtask_options.get("mapping"): subtask_options["mapping"] =
generated_mapping_file.name` — the options the load subtask receives. -/
def adoptMapping (o1 : Options) (scratch : String) : Options :=
  if (getOpt o1 "mapping").truthy = false then setOpt o1 "mapping" (.vStr scratch) else o1

/-- `_generate_batch`: resolve the database URL, reflect (may raise), drop the
object tables (may raise), build the subtask options, open the scratch mapping
tempfile, run the generation subtask (may raise), adopt the generated mapping
when no mapping is set, run the load subtask (may raise); the scratch file is
released when the `with` block exits on every path. Returns the outcome and
the ordered event trace. -/
def generate_batch (opts : Options) (env : RunEnv) (database_url : OptVal)
    (tempdir : String) (mapping_file : Option String) (batch_size index : Nat) :
    Except PyError Unit × List Event :=
  let url := resolve_database_url database_url tempdir
  if env.reflectFailsAt url index then
    (.error (.stepError "reflect"), [.reflect url])
  else
    let dropEvs := cleanupEvents (env.tablesAt url index)
    if !(tables_to_drop (env.tablesAt url index)).isEmpty && env.dropFailsAt index then
      (.error (.stepError "drop"), .reflect url :: dropEvs)
    else
      let scratch := env.scratchPath index
      let o1 := datagenOpts opts mapping_file url batch_size index tempdir scratch
      if env.datagenFailsAt index then
        (.error (.stepError "datagen"),
          .reflect url :: dropEvs ++ [.datagen o1, .releaseScratch scratch])
      else
        let o2 := adoptMapping o1 scratch
        if env.dataloadFailsAt index then
          (.error (.stepError "dataload"),
            .reflect url :: dropEvs ++ [.datagen o1, .dataload o2, .releaseScratch scratch])
        else
          (.ok (),
            .reflect url :: dropEvs ++ [.datagen o1, .dataload o2, .releaseScratch scratch])

/-- The loop body of `_run_task`: process the batches in order, stopping at
the first batch whose `_generate_batch` raises; the error propagates as-is. -/
def run_batches (opts : Options) (env : RunEnv) (database_url : OptVal)
    (tempdir : String) (mapping_file : Option String) :
    List (Nat × Nat) → Except PyError Unit × List Event
  | [] => (.ok (), [])
  | (s, i) :: rest =>
    match generate_batch opts env database_url tempdir mapping_file s i with
    | (.error e, evs) => (.error e, evs)
    | (.ok _, evs) =>
      let r := run_batches opts env database_url tempdir mapping_file rest
      (r.1, evs ++ r.2)

/-- `self.debug_dir or tempdir`: the scoped directory every batch receives. -/
def runTempdir (cfg : Config) (env : RunEnv) : String :=
  if cfg.debug_dir.truthy then cfg.debug_dir.strVal else env.tempdirName

/-- `_run_task`: iterate `_generate_batch` over the partition produced by
`generate_batches(self.num_records, self.batch_size)`. -/
def run_task (cfg : Config) (env : RunEnv) : Except PyError Unit × List Event :=
  run_batches cfg.options env cfg.database_url (runTempdir cfg env) cfg.mapping_file
    (generate_batches cfg.num_records.toNat cfg.batch_size.toNat)

theorem generate_batch_cases (opts : Options) (env : RunEnv) (db : OptVal)
    (tempdir : String) (mf : Option String) (s i : Nat) :
    generate_batch opts env db tempdir mf s i =
        (.error (.stepError "reflect"), [.reflect (resolve_database_url db tempdir)]) ∨
    generate_batch opts env db tempdir mf s i =
        (.error (.stepError "drop"), .reflect (resolve_database_url db tempdir) ::
          cleanupEvents (env.tablesAt (resolve_database_url db tempdir) i)) ∨
    generate_batch opts env db tempdir mf s i =
        (.error (.stepError "datagen"), .reflect (resolve_database_url db tempdir) ::
          cleanupEvents (env.tablesAt (resolve_database_url db tempdir) i) ++
          [.datagen (datagenOpts opts mf (resolve_database_url db tempdir) s i tempdir
            (env.scratchPath i)),
           .releaseScratch (env.scratchPath i)]) ∨
    (∃ r, generate_batch opts env db tempdir mf s i =
        (r, .reflect (resolve_database_url db tempdir) ::
          cleanupEvents (env.tablesAt (resolve_database_url db tempdir) i) ++
          [.datagen (datagenOpts opts mf (resolve_database_url db tempdir) s i tempdir
            (env.scratchPath i)),
           .dataload (adoptMapping (datagenOpts opts mf (resolve_database_url db tempdir) s i
            tempdir (env.scratchPath i)) (env.scratchPath i)),
           .releaseScratch (env.scratchPath i)])) := by
  unfold generate_batch
  by_cases h1 : env.reflectFailsAt (resolve_database_url db tempdir) i
  · simp [h1]
  · simp only [h1, Bool.false_eq_true, if_false]
    by_cases h2 : !(tables_to_drop (env.tablesAt (resolve_database_url db tempdir) i)).isEmpty
        && env.dropFailsAt i
    · simp [h2]
    · simp only [h2, Bool.false_eq_true, if_false]
      by_cases h3 : env.datagenFailsAt i
      · simp [h3]
      · simp only [h3, Bool.false_eq_true, if_false]
        by_cases h4 : env.dataloadFailsAt i
        · simp [h4]
        · simp [h4]

theorem mem_cleanupEvents_dropTables (tables : List String) (d : List String)
    (h : Event.dropTables d ∈ cleanupEvents tables) : d = tables_to_drop tables := by
  unfold cleanupEvents at h
  rcases Decidable.em ((tables_to_drop tables).isEmpty = true) with he | he
  · rw [if_pos he] at h
    exact absurd h (List.not_mem_nil _)
  · rw [if_neg he, List.mem_singleton] at h
    simpa using h

theorem generate_batch_dropTables (opts : Options) (env : RunEnv) (db : OptVal)
    (tempdir : String) (mf : Option String) (s i : Nat) (d : List String)
    (h : Event.dropTables d ∈ (generate_batch opts env db tempdir mf s i).2) :
    d = tables_to_drop (env.tablesAt (resolve_database_url db tempdir) i) := by
  rcases generate_batch_cases opts env db tempdir mf s i with hc | hc | hc | ⟨r, hc⟩
  · rw [hc] at h
    simp at h
  · rw [hc] at h
    rcases List.mem_cons.mp h with h | h
    · exact absurd h (by simp)
    · exact mem_cleanupEvents_dropTables _ _ h
  · rw [hc] at h
    rcases List.mem_cons.mp h with h | h
    · exact absurd h (by simp)
    · rcases List.mem_append.mp h with h | h
      · exact mem_cleanupEvents_dropTables _ _ h
      · simp at h
  · rw [hc] at h
    rcases List.mem_cons.mp h with h | h
    · exact absurd h (by simp)
    · rcases List.mem_append.mp h with h | h
      · exact mem_cleanupEvents_dropTables _ _ h
      · simp at h

theorem run_batches_mem (opts : Options) (env : RunEnv) (db : OptVal)
    (tempdir : String) (mf : Option String) (l : List (Nat × Nat)) (e : Event)
    (h : e ∈ (run_batches opts env db tempdir mf l).2) :
    ∃ p ∈ l, e ∈ (generate_batch opts env db tempdir mf p.1 p.2).2 := by
  induction l with
  | nil => exact absurd h (List.not_mem_nil e)
  | cons hd tl ih =>
    rcases hd with ⟨s, i⟩
    rw [run_batches] at h
    rcases hgb : generate_batch opts env db tempdir mf s i with ⟨r, evs⟩
    rw [hgb] at h
    rcases r with er | u
    · exact ⟨(s, i), List.mem_cons_self _ _, by simpa [hgb] using h⟩
    · simp only [] at h
      rcases List.mem_append.mp h with h | h
      · exact ⟨(s, i), List.mem_cons_self _ _, by simpa [hgb] using h⟩
      · rcases ih h with ⟨p, hp, hmem⟩
        exact ⟨p, List.mem_cons_of_mem _ hp, hmem⟩

theorem tables_to_drop_no_sfids (tables : List String) (t : String)
    (h : t ∈ tables_to_drop tables) : endswith t "sf_ids" = false := by
  unfold tables_to_drop at h
  have := List.of_mem_filter h
  simpa using this

theorem mem_tables_to_drop (tables : List String) (t : String) (ht : t ∈ tables)
    (h : endswith t "sf_ids" = false) : t ∈ tables_to_drop tables := by
  unfold tables_to_drop
  exact List.mem_filter.mpr ⟨ht, by simp [h]⟩

theorem datagen_not_mem_cleanupEvents (tables : List String) (o : Options) :
    Event.datagen o ∉ cleanupEvents tables := by
  unfold cleanupEvents
  split
  · exact List.not_mem_nil _
  · simp

theorem generate_batch_datagen_order (opts : Options) (env : RunEnv) (db : OptVal)
    (tempdir : String) (mf : Option String) (s i : Nat) (o : Options)
    (h : Event.datagen o ∈ (generate_batch opts env db tempdir mf s i).2) :
    ∃ rest, (generate_batch opts env db tempdir mf s i).2 =
      .reflect (resolve_database_url db tempdir) ::
        cleanupEvents (env.tablesAt (resolve_database_url db tempdir) i) ++
        .datagen o :: rest := by
  rcases generate_batch_cases opts env db tempdir mf s i with hc | hc | hc | ⟨r, hc⟩
  · rw [hc] at h
    simp at h
  · rw [hc] at h
    rcases List.mem_cons.mp h with h | h
    · exact absurd h (by simp)
    · exact absurd h (datagen_not_mem_cleanupEvents _ _)
  · rw [hc] at h ⊢
    rcases List.mem_cons.mp h with h | h
    · exact absurd h (by simp)
    · rcases List.mem_append.mp h with h | h
      · exact absurd h (datagen_not_mem_cleanupEvents _ _)
      · have ho : o = datagenOpts opts mf (resolve_database_url db tempdir) s i tempdir
            (env.scratchPath i) := by
          simpa using h
        exact ⟨[.releaseScratch (env.scratchPath i)], by rw [ho]⟩
  · rw [hc] at h ⊢
    rcases List.mem_cons.mp h with h | h
    · exact absurd h (by simp)
    · rcases List.mem_append.mp h with h | h
      · exact absurd h (datagen_not_mem_cleanupEvents _ _)
      · have ho : o = datagenOpts opts mf (resolve_database_url db tempdir) s i tempdir
            (env.scratchPath i) := by
          simpa using h
        refine ⟨[.dataload (adoptMapping (datagenOpts opts mf (resolve_database_url db tempdir)
          s i tempdir (env.scratchPath i)) (env.scratchPath i)),
          .releaseScratch (env.scratchPath i)], by rw [ho]⟩

theorem run_task_zero (cfg : Config) (env : RunEnv) (h0 : cfg.num_records = 0) :
    run_task cfg env = (.ok (), []) := by
  unfold run_task
  rw [h0]
  rw [show (0 : Int).toNat = 0 from rfl, generate_batches_zero]
  rfl

/-- C1: for every total record count N ≥ 0 and batch size B > 0, the batch
loop of `_run_task` iterates over the partition `generate_batches N B`, whose
sizes sum exactly to N, each size is at most B, every size equals B except
possibly the last, the indices are 0, 1, 2, ... in order, and when N = 0 the
partition is empty and `_run_task` performs zero iterations, invoking no
generation or loading step at all. -/
theorem batch_loop_partition (n b : Nat) (hb : 0 < b) (cfg : Config) (env : RunEnv)
    (h0 : cfg.num_records = 0) :
    (batchSizes n b).sum = n ∧
    (∀ s ∈ batchSizes n b, s ≤ b) ∧
    (∀ s ∈ (batchSizes n b).dropLast, s = b) ∧
    (generate_batches n b).map Prod.snd = List.range (generate_batches n b).length ∧
    generate_batches 0 b = [] ∧
    run_task cfg env = (.ok (), []) :=
  ⟨batchSizes_sum n b, batchSizes_le n b hb, batchSizes_dropLast n b,
   generate_batches_indices n b, generate_batches_zero b, run_task_zero cfg env h0⟩

/-- Demonstration options: a well-formed configuration with `num_records` 10,
`batch_size` 4, a generation task, and neither `mapping` nor `database_url`. -/
def demoOptions : Options := fun k =>
  if k = "num_records" then some (.vInt 10)
  else if k = "batch_size" then some (.vInt 4)
  else if k = "data_generation_task" then some (.vStr "dummy_data_factory.GenerateDummyData")
  else none

/-- Demonstration run environment: nothing fails, the staging database
reflects one object table and one ID-mapping table. -/
def demoEnv : RunEnv where
  tablesAt := fun _ _ => ["households", "households_sf_ids"]
  reflectFailsAt := fun _ _ => false
  dropFailsAt := fun _ => false
  datagenFailsAt := fun _ => false
  dataloadFailsAt := fun _ => false
  scratchPath := fun i => "/tmp/scratch" ++ toString i ++ "_mapping.yml"
  tempdirName := "/tmp/run"

/-- Demonstration configuration with `num_records` 0, transient database. -/
def demoConfig0 : Config where
  options := demoOptions
  mapping_file := none
  database_url := .vNone
  num_records := 0
  batch_size := 4
  debug_dir := .vNone

theorem batch_loop_partition_w :
    (batchSizes 10 4).sum = 10 ∧
    (∀ s ∈ batchSizes 10 4, s ≤ 4) ∧
    (∀ s ∈ (batchSizes 10 4).dropLast, s = 4) ∧
    (generate_batches 10 4).map Prod.snd = List.range (generate_batches 10 4).length ∧
    generate_batches 0 4 = [] ∧
    run_task demoConfig0 demoEnv = (.ok (), []) :=
  batch_loop_partition 10 4 (by decide) demoConfig0 demoEnv rfl

/-- C2: in every batch — including batch 0 on a freshly created store — the
cleanup of object tables precedes the generation step: every reflected table
whose name does not end with "sf_ids" is in the dropped set, every `drop_all`
event of a whole run drops only tables whose names do not end with "sf_ids"
(so an ID-mapping table is never dropped by any operation of the
orchestrator), and whenever the generation step is invoked in a batch the
trace starts with reflection followed by the cleanup, with the generation
strictly after. -/
theorem object_table_lifecycle (opts : Options) (env : RunEnv) (db : OptVal)
    (tempdir : String) (mf : Option String) (s i : Nat) (cfg : Config) :
    (∀ t ∈ env.tablesAt (resolve_database_url db tempdir) i,
        endswith t "sf_ids" = false →
        t ∈ tables_to_drop (env.tablesAt (resolve_database_url db tempdir) i)) ∧
    (∀ d, Event.dropTables d ∈ (run_task cfg env).2 → ∀ t ∈ d, endswith t "sf_ids" = false) ∧
    (∀ o, Event.datagen o ∈ (generate_batch opts env db tempdir mf s i).2 →
      ∃ rest, (generate_batch opts env db tempdir mf s i).2 =
        .reflect (resolve_database_url db tempdir) ::
          cleanupEvents (env.tablesAt (resolve_database_url db tempdir) i) ++
          .datagen o :: rest) := by
  refine ⟨fun t ht hsfx => mem_tables_to_drop _ t ht hsfx, ?_, ?_⟩
  · intro d hd t htd
    rcases run_batches_mem _ _ _ _ _ _ _ hd with ⟨p, _, hmem⟩
    have := generate_batch_dropTables _ _ _ _ _ _ _ _ hmem
    exact tables_to_drop_no_sfids _ t (this ▸ htd)
  · intro o ho
    exact generate_batch_datagen_order opts env db tempdir mf s i o ho

theorem init_options_with_db (env : InitEnv) (o : Options) (nr bs : Int) (cp url : String)
    (hm : o "mapping" = none) (hn : o "num_records" = some (.vInt nr))
    (hb : o "batch_size" = some (.vInt bs)) (hbpos : 0 < bs)
    (hdg : o "data_generation_task" = some (.vStr cp)) (himp : env.importOk cp = true)
    (hdb : o "database_url" = some (.vStr url)) (hurl : url ≠ "") :
    init_options env o =
      if !(env.reflectedTables url).isEmpty ∧ (getOpt o "replace_database").truthy = false then
        .error (.taskOptionsError
          ("Database " ++ url ++ " has tables but replace_database was not specified"))
      else .ok ⟨o, none, .vStr url, nr, bs, getOpt o "debug_dir"⟩ := by
  have hue : url.isEmpty = false := by
    cases hu : url.isEmpty
    · rfl
    · exact absurd ((String.isEmpty_iff url).mp hu) hurl
  unfold init_options checkMapping parseNumRecords parseBatchSize resolveDataGenerationTask
  simp [getOpt, hm, hn, hb, hdg, hdb, OptVal.toInt?, OptVal.truthy, himp, hue,
    not_le.mpr hbpos]

/-- C3: with `database_url` supplied (and all other options valid), setup
raises a `TaskOptionsError` if and only if the reflected database contains at
least one table and `replace_database` is not set; when the database is empty
or `replace_database` is set, setup succeeds with no confirmation required. -/
theorem database_url_reuse_check (env : InitEnv) (o : Options) (nr bs : Int) (cp url : String)
    (hm : o "mapping" = none) (hn : o "num_records" = some (.vInt nr))
    (hb : o "batch_size" = some (.vInt bs)) (hbpos : 0 < bs)
    (hdg : o "data_generation_task" = some (.vStr cp)) (himp : env.importOk cp = true)
    (hdb : o "database_url" = some (.vStr url)) (hurl : url ≠ "") :
    ((∃ msg, init_options env o = .error (.taskOptionsError msg)) ↔
      (env.reflectedTables url ≠ [] ∧ (getOpt o "replace_database").truthy = false)) ∧
    ((env.reflectedTables url = [] ∨ (getOpt o "replace_database").truthy = true) →
      ∃ cfg, init_options env o = .ok cfg) := by
  have hred := init_options_with_db env o nr bs cp url hm hn hb hbpos hdg himp hdb hurl
  constructor
  · constructor
    · rintro ⟨msg, hmsg⟩
      by_contra hcond
      rw [hred] at hmsg
      rcases Decidable.em (!(env.reflectedTables url).isEmpty
          ∧ (getOpt o "replace_database").truthy = false) with hc | hc
      · exact hcond ⟨by simpa using hc.1, hc.2⟩
      · rw [if_neg hc] at hmsg
        exact Except.noConfusion hmsg
    · rintro ⟨hne, hrep⟩
      rw [hred, if_pos ⟨by simpa using hne, hrep⟩]
      exact ⟨_, rfl⟩
  · intro hok
    rw [hred]
    rcases Decidable.em (!(env.reflectedTables url).isEmpty
        ∧ (getOpt o "replace_database").truthy = false) with hc | hc
    · rcases hok with hok | hok
      · exact absurd hok (by simpa using hc.1)
      · rw [hok] at hc
        exact absurd hc.2 (by simp)
    · rw [if_neg hc]
      exact ⟨_, rfl⟩

/-- Environment for demonstrations: every path exists, every import resolves,
and a caller-supplied database reflects one object table. -/
def demoInitEnv : InitEnv where
  abspath := fun s => "/abs/" ++ s
  pathExists := fun _ => true
  reflectedTables := fun _ => ["households"]
  importOk := fun _ => true

/-- Options with a caller-supplied `database_url` and no `replace_database`. -/
def demoDbOptions : Options := fun k =>
  if k = "num_records" then some (.vInt 10)
  else if k = "batch_size" then some (.vInt 4)
  else if k = "data_generation_task" then some (.vStr "dummy_data_factory.GenerateDummyData")
  else if k = "database_url" then some (.vStr "postgres://db")
  else none

theorem database_url_reuse_check_w :
    ((∃ msg, init_options demoInitEnv demoDbOptions = .error (.taskOptionsError msg)) ↔
      (demoInitEnv.reflectedTables "postgres://db" ≠ [] ∧
        (getOpt demoDbOptions "replace_database").truthy = false)) ∧
    ((demoInitEnv.reflectedTables "postgres://db" = [] ∨
        (getOpt demoDbOptions "replace_database").truthy = true) →
      ∃ cfg, init_options demoInitEnv demoDbOptions = .ok cfg) :=
  database_url_reuse_check demoInitEnv demoDbOptions 10 4
    "dummy_data_factory.GenerateDummyData" "postgres://db"
    rfl rfl rfl (by decide) rfl rfl rfl (by decide)

/-- Environment whose caller-supplied database reflects only an ID-mapping
table, as a previous run of this same orchestrator leaves behind. -/
def demoSfidsInitEnv : InitEnv where
  abspath := fun s => "/abs/" ++ s
  pathExists := fun _ => true
  reflectedTables := fun _ => ["households_sf_ids"]
  importOk := fun _ => true

/-- C10: the destructive-reuse check of `_init_options` counts every reflected
table, including tables whose names end with the ID-mapping suffix: a
supplied `database_url` whose store contains only "sf_ids"-suffixed tables
still makes setup raise a `TaskOptionsError` when `replace_database` is not
set. -/
theorem reuse_check_counts_sfids (env : InitEnv) (o : Options) (nr bs : Int) (cp url : String)
    (hm : o "mapping" = none) (hn : o "num_records" = some (.vInt nr))
    (hb : o "batch_size" = some (.vInt bs)) (hbpos : 0 < bs)
    (hdg : o "data_generation_task" = some (.vStr cp)) (himp : env.importOk cp = true)
    (hdb : o "database_url" = some (.vStr url)) (hurl : url ≠ "")
    (hne : env.reflectedTables url ≠ [])
    (hall : ∀ t ∈ env.reflectedTables url, endswith t "sf_ids" = true)
    (hrep : (getOpt o "replace_database").truthy = false) :
    ∃ msg, init_options env o = .error (.taskOptionsError msg) := by
  rw [init_options_with_db env o nr bs cp url hm hn hb hbpos hdg himp hdb hurl,
    if_pos ⟨by simpa using hne, hrep⟩]
  exact ⟨_, rfl⟩

theorem reuse_check_counts_sfids_w :
    ∃ msg, init_options demoSfidsInitEnv demoDbOptions = .error (.taskOptionsError msg) :=
  reuse_check_counts_sfids demoSfidsInitEnv demoDbOptions 10 4
    "dummy_data_factory.GenerateDummyData" "postgres://db"
    rfl rfl rfl (by decide) rfl rfl rfl (by decide) (by decide)
    (by decide) rfl

theorem datagen_not_mem_cleanup (tables : List String) (o : Options) :
    Event.datagen o ∉ cleanupEvents tables := by
  unfold cleanupEvents
  split
  · exact List.not_mem_nil _
  · simp

theorem dataload_not_mem_cleanup (tables : List String) (o : Options) :
    Event.dataload o ∉ cleanupEvents tables := by
  unfold cleanupEvents
  split
  · exact List.not_mem_nil _
  · simp

theorem generate_batch_datagen_opts (opts : Options) (env : RunEnv) (db : OptVal)
    (tempdir : String) (mf : Option String) (s i : Nat) (o : Options)
    (h : Event.datagen o ∈ (generate_batch opts env db tempdir mf s i).2) :
    o = datagenOpts opts mf (resolve_database_url db tempdir) s i tempdir
      (env.scratchPath i) := by
  rcases generate_batch_cases opts env db tempdir mf s i with hc | hc | hc | ⟨r, hc⟩ <;>
    rw [hc] at h
  · simp at h
  · rcases List.mem_cons.mp h with h | h
    · exact absurd h (by simp)
    · exact absurd h (datagen_not_mem_cleanup _ _)
  · rcases List.mem_cons.mp h with h | h
    · exact absurd h (by simp)
    · rcases List.mem_append.mp h with h | h
      · exact absurd h (datagen_not_mem_cleanup _ _)
      · simpa using h
  · rcases List.mem_cons.mp h with h | h
    · exact absurd h (by simp)
    · rcases List.mem_append.mp h with h | h
      · exact absurd h (datagen_not_mem_cleanup _ _)
      · simpa using h

theorem generate_batch_dataload_opts (opts : Options) (env : RunEnv) (db : OptVal)
    (tempdir : String) (mf : Option String) (s i : Nat) (o : Options)
    (h : Event.dataload o ∈ (generate_batch opts env db tempdir mf s i).2) :
    o = adoptMapping (datagenOpts opts mf (resolve_database_url db tempdir) s i tempdir
      (env.scratchPath i)) (env.scratchPath i) := by
  rcases generate_batch_cases opts env db tempdir mf s i with hc | hc | hc | ⟨r, hc⟩ <;>
    rw [hc] at h
  · simp at h
  · rcases List.mem_cons.mp h with h | h
    · exact absurd h (by simp)
    · exact absurd h (dataload_not_mem_cleanup _ _)
  · rcases List.mem_cons.mp h with h | h
    · exact absurd h (by simp)
    · rcases List.mem_append.mp h with h | h
      · exact absurd h (dataload_not_mem_cleanup _ _)
      · simp at h
  · rcases List.mem_cons.mp h with h | h
    · exact absurd h (by simp)
    · rcases List.mem_append.mp h with h | h
      · exact absurd h (dataload_not_mem_cleanup _ _)
      · simpa using h

/-- C6: the option set passed to the generation step of batch (size s, index
i) is the orchestrator's own option map overridden with exactly the batch's
mapping file, the generated-mapping output path, `reset_oids` false, the
resolved database URL, `num_records` = s, `current_batch_number` = i, and
`working_directory` = the scoped directory; every other key passes through
unchanged. -/
theorem datagen_option_derivation (opts : Options) (env : RunEnv) (db : OptVal)
    (tempdir : String) (mf : Option String) (s i : Nat) (o : Options)
    (h : Event.datagen o ∈ (generate_batch opts env db tempdir mf s i).2) :
    getOpt o "mapping" = (match mf with | some p => .vStr p | none => .vNone) ∧
    getOpt o "generate_mapping_file" = .vStr (env.scratchPath i) ∧
    getOpt o "reset_oids" = .vBool false ∧
    getOpt o "database_url" = .vStr (resolve_database_url db tempdir) ∧
    getOpt o "num_records" = .vInt s ∧
    getOpt o "current_batch_number" = .vInt i ∧
    getOpt o "working_directory" = .vStr tempdir ∧
    (∀ k, k ≠ "mapping" → k ≠ "generate_mapping_file" → k ≠ "reset_oids" →
      k ≠ "database_url" → k ≠ "num_records" → k ≠ "current_batch_number" →
      k ≠ "working_directory" → o k = opts k) := by
  have ho := generate_batch_datagen_opts opts env db tempdir mf s i o h
  subst ho
  refine ⟨?_, ?_, ?_, ?_, ?_, ?_, ?_, ?_⟩
  · cases mf <;> simp [datagenOpts, subtask_options, getOpt, setOpt]
  · simp [datagenOpts, subtask_options, getOpt, setOpt]
  · simp [datagenOpts, subtask_options, getOpt, setOpt]
  · simp [datagenOpts, subtask_options, getOpt, setOpt]
  · simp [datagenOpts, subtask_options, getOpt, setOpt]
  · simp [datagenOpts, subtask_options, getOpt, setOpt]
  · simp [datagenOpts, subtask_options, getOpt, setOpt]
  · intro k h1 h2 h3 h4 h5 h6 h7
    simp [datagenOpts, subtask_options, setOpt, h1, h2, h3, h4, h5, h6, h7]

theorem datagen_option_derivation_w :
    (getOpt (datagenOpts demoOptions none (resolve_database_url .vNone "/tmp/run") 4 0
        "/tmp/run" (demoEnv.scratchPath 0)) "mapping" =
      (match (none : Option String) with | some p => .vStr p | none => .vNone)) ∧
    getOpt (datagenOpts demoOptions none (resolve_database_url .vNone "/tmp/run") 4 0
        "/tmp/run" (demoEnv.scratchPath 0)) "generate_mapping_file" =
      .vStr (demoEnv.scratchPath 0) ∧
    getOpt (datagenOpts demoOptions none (resolve_database_url .vNone "/tmp/run") 4 0
        "/tmp/run" (demoEnv.scratchPath 0)) "reset_oids" = .vBool false ∧
    getOpt (datagenOpts demoOptions none (resolve_database_url .vNone "/tmp/run") 4 0
        "/tmp/run" (demoEnv.scratchPath 0)) "database_url" =
      .vStr (resolve_database_url .vNone "/tmp/run") ∧
    getOpt (datagenOpts demoOptions none (resolve_database_url .vNone "/tmp/run") 4 0
        "/tmp/run" (demoEnv.scratchPath 0)) "num_records" = .vInt 4 ∧
    getOpt (datagenOpts demoOptions none (resolve_database_url .vNone "/tmp/run") 4 0
        "/tmp/run" (demoEnv.scratchPath 0)) "current_batch_number" = .vInt 0 ∧
    getOpt (datagenOpts demoOptions none (resolve_database_url .vNone "/tmp/run") 4 0
        "/tmp/run" (demoEnv.scratchPath 0)) "working_directory" = .vStr "/tmp/run" ∧
    (∀ k, k ≠ "mapping" → k ≠ "generate_mapping_file" → k ≠ "reset_oids" →
      k ≠ "database_url" → k ≠ "num_records" → k ≠ "current_batch_number" →
      k ≠ "working_directory" →
      datagenOpts demoOptions none (resolve_database_url .vNone "/tmp/run") 4 0
        "/tmp/run" (demoEnv.scratchPath 0) k = demoOptions k) :=
  datagen_option_derivation demoOptions demoEnv .vNone "/tmp/run" none 4 0
    (datagenOpts demoOptions none (resolve_database_url .vNone "/tmp/run") 4 0
      "/tmp/run" (demoEnv.scratchPath 0))
    (by refine List.mem_cons_of_mem _ (List.mem_append_right _ ?_)
        exact List.mem_cons_self _ _)

theorem adoptMapping_of_no_mapping (opts : Options) (url : String) (s i : Nat)
    (tempdir scratch : String) :
    getOpt (adoptMapping (datagenOpts opts none url s i tempdir scratch) scratch)
      "mapping" = .vStr scratch := by
  have hm : getOpt (datagenOpts opts none url s i tempdir scratch) "mapping" = .vNone := by
    simp [datagenOpts, subtask_options, getOpt, setOpt]
  unfold adoptMapping
  rw [hm]
  simp [getOpt, setOpt, OptVal.truthy]

/-- C4: in a batch with no fixed mapping option configured (and whose
reflection and table-drop steps do not raise, so that the scratch tempfile is
opened), the load step — whenever it is invoked — receives the mapping path
the generation step was given as its generated-mapping output path, and the
scratch mapping file is released as the very last action of the batch,
regardless of whether the generation or loading step succeeded or raised. -/
theorem scratch_mapping_release (opts : Options) (env : RunEnv) (db : OptVal)
    (tempdir : String) (s i : Nat)
    (h1 : env.reflectFailsAt (resolve_database_url db tempdir) i = false)
    (h2 : env.dropFailsAt i = false) :
    (∀ o, Event.dataload o ∈ (generate_batch opts env db tempdir none s i).2 →
      getOpt o "mapping" = .vStr (env.scratchPath i)) ∧
    (∃ pre, (generate_batch opts env db tempdir none s i).2 =
      pre ++ [Event.releaseScratch (env.scratchPath i)]) := by
  constructor
  · intro o ho
    rw [generate_batch_dataload_opts opts env db tempdir none s i o ho]
    exact adoptMapping_of_no_mapping opts (resolve_database_url db tempdir) s i tempdir
      (env.scratchPath i)
  · unfold generate_batch
    simp only [h1, Bool.false_eq_true, if_false, h2, Bool.and_false, if_false]
    by_cases h3 : env.datagenFailsAt i
    · simp only [h3, if_true]
      exact ⟨Event.reflect (resolve_database_url db tempdir) ::
        cleanupEvents (env.tablesAt (resolve_database_url db tempdir) i) ++
        [.datagen (datagenOpts opts none (resolve_database_url db tempdir) s i tempdir
          (env.scratchPath i))], by simp⟩
    · simp only [h3, Bool.false_eq_true, if_false]
      by_cases h4 : env.dataloadFailsAt i
      · simp only [h4, if_true]
        exact ⟨Event.reflect (resolve_database_url db tempdir) ::
          cleanupEvents (env.tablesAt (resolve_database_url db tempdir) i) ++
          [.datagen (datagenOpts opts none (resolve_database_url db tempdir) s i tempdir
            (env.scratchPath i)),
           .dataload (adoptMapping (datagenOpts opts none (resolve_database_url db tempdir)
            s i tempdir (env.scratchPath i)) (env.scratchPath i))], by simp⟩
      · simp only [h4, Bool.false_eq_true, if_false]
        exact ⟨Event.reflect (resolve_database_url db tempdir) ::
          cleanupEvents (env.tablesAt (resolve_database_url db tempdir) i) ++
          [.datagen (datagenOpts opts none (resolve_database_url db tempdir) s i tempdir
            (env.scratchPath i)),
           .dataload (adoptMapping (datagenOpts opts none (resolve_database_url db tempdir)
            s i tempdir (env.scratchPath i)) (env.scratchPath i))], by simp⟩

theorem scratch_mapping_release_w :
    (∀ o, Event.dataload o ∈ (generate_batch demoOptions demoEnv .vNone "/tmp/run" none 4 0).2 →
      getOpt o "mapping" = .vStr (demoEnv.scratchPath 0)) ∧
    (∃ pre, (generate_batch demoOptions demoEnv .vNone "/tmp/run" none 4 0).2 =
      pre ++ [Event.releaseScratch (demoEnv.scratchPath 0)]) :=
  scratch_mapping_release demoOptions demoEnv .vNone "/tmp/run" 4 0 rfl rfl

/-- C5: an exception raised inside any batch propagates out of the batch loop
as-is: when every batch before the failing one succeeds and batch (s, i)
raises e, the whole run returns exactly e, the trace is the concatenation of
the earlier batches' traces (left in place, uncompensated) followed by the
failing batch's partial trace once (no retry), and the batches after the
failing one contribute nothing (never started). -/
theorem error_propagation (opts : Options) (env : RunEnv) (db : OptVal)
    (tempdir : String) (mf : Option String) (pre rest : List (Nat × Nat))
    (s i : Nat) (e : PyError)
    (hpre : ∀ p ∈ pre, (generate_batch opts env db tempdir mf p.1 p.2).1 = .ok ())
    (hfail : (generate_batch opts env db tempdir mf s i).1 = .error e) :
    run_batches opts env db tempdir mf (pre ++ (s, i) :: rest) =
      (.error e,
        (pre.map (fun p => (generate_batch opts env db tempdir mf p.1 p.2).2)).flatten ++
          (generate_batch opts env db tempdir mf s i).2) := by
  induction pre with
  | nil =>
    rw [List.nil_append, run_batches]
    rcases hgb : generate_batch opts env db tempdir mf s i with ⟨r, evs⟩
    have hr : r = .error e := by rw [hgb] at hfail; exact hfail
    subst hr
    simp [hgb]
  | cons hd tl ih =>
    rcases hd with ⟨s0, i0⟩
    rw [List.cons_append, run_batches]
    rcases hgb : generate_batch opts env db tempdir mf s0 i0 with ⟨r, evs⟩
    have hr : r = .ok () := by
      have := hpre (s0, i0) (List.mem_cons_self _ _)
      rw [hgb] at this
      exact this
    subst hr
    have ih2 := ih (fun p hp => hpre p (List.mem_cons_of_mem _ hp))
    rw [ih2]
    simp [hgb, List.flatten]

/-- Environment in which the generation step of batch index 1 raises and
everything else succeeds; the staging store reflects no tables. -/
def demoFailEnv : RunEnv where
  tablesAt := fun _ _ => []
  reflectFailsAt := fun _ _ => false
  dropFailsAt := fun _ => false
  datagenFailsAt := fun i => i == 1
  dataloadFailsAt := fun _ => false
  scratchPath := fun i => "/tmp/scratch" ++ toString i ++ "_mapping.yml"
  tempdirName := "/tmp/run"

theorem error_propagation_w :
    run_batches demoOptions demoFailEnv .vNone "/tmp/run" none
        ([(4, 0)] ++ (4, 1) :: [(2, 2)]) =
      (.error (.stepError "datagen"),
        ([(4, 0)].map (fun p =>
          (generate_batch demoOptions demoFailEnv .vNone "/tmp/run" none p.1 p.2).2)).flatten ++
          (generate_batch demoOptions demoFailEnv .vNone "/tmp/run" none 4 1).2) :=
  error_propagation demoOptions demoFailEnv .vNone "/tmp/run" none [(4, 0)] [(2, 2)] 4 1
    (.stepError "datagen")
    (by intro p hp
        rw [List.mem_singleton.mp hp]
        rfl)
    rfl

theorem init_batch_core (env : InitEnv) (o : Options) (nr bs : Int)
    (hm : o "mapping" = none) (hn : o "num_records" = some (.vInt nr))
    (hpb : parseBatchSize o nr = .ok bs) :
    (bs ≤ 0 →
      init_options env o = .error (.taskOptionsError "Batch size should be greater than zero")) ∧
    (∀ cfg, init_options env o = .ok cfg → cfg.batch_size = bs) := by
  have hcm : checkMapping env o = .ok none := by
    simp [checkMapping, getOpt, hm, OptVal.truthy]
  have hpn : parseNumRecords o = .ok nr := by
    simp [parseNumRecords, hn, OptVal.toInt?]
  constructor
  · intro hle
    simp only [init_options, hcm, hpn, hpb, if_pos hle]
  · intro cfg hok
    simp only [init_options, hcm, hpn, hpb] at hok
    by_cases hle : bs ≤ 0
    · rw [if_pos hle] at hok
      exact absurd hok (by simp)
    · rw [if_neg hle] at hok
      cases hr : resolveDataGenerationTask env o with
      | error e =>
        simp only [hr] at hok
        exact absurd hok (by simp)
      | ok cp =>
        simp only [hr] at hok
        cases hv : getOpt o "database_url" with
        | vStr url =>
          simp only [hv] at hok
          by_cases ht : OptVal.truthy (.vStr url) = true
          · simp only [ht, if_true] at hok
            by_cases hc : (!(env.reflectedTables url).isEmpty) = true
                ∧ (getOpt o "replace_database").truthy = false
            · rw [if_pos hc] at hok
              exact absurd hok (by simp)
            · rw [if_neg hc] at hok
              injection hok with h
              rw [← h]
          · simp only [Bool.not_eq_true] at ht
            simp only [ht, Bool.false_eq_true, if_false] at hok
            injection hok with h
            rw [← h]
        | vInt n =>
          simp only [hv] at hok
          by_cases ht : OptVal.truthy (.vInt n) = true
          · simp only [ht, if_true] at hok
            exact absurd hok (by simp)
          · simp only [Bool.not_eq_true] at ht
            simp only [ht, Bool.false_eq_true, if_false] at hok
            injection hok with h
            rw [← h]
        | vBool b =>
          simp only [hv] at hok
          by_cases ht : OptVal.truthy (.vBool b) = true
          · simp only [ht, if_true] at hok
            exact absurd hok (by simp)
          · simp only [Bool.not_eq_true] at ht
            simp only [ht, Bool.false_eq_true, if_false] at hok
            injection hok with h
            rw [← h]
        | vNone =>
          simp only [hv, OptVal.truthy, Bool.false_eq_true, if_false] at hok
          injection hok with h
          rw [← h]

/-- C7: the `batch_size` option defaults to `num_records` when not supplied,
and setup raises a `TaskOptionsError` — before any batch executes — whenever
the (possibly defaulted) `batch_size` is an integer less than or equal to
zero; on success the stored batch size is the (possibly defaulted) value. -/
theorem batch_size_defaulting (env : InitEnv) (o : Options) (nr : Int)
    (hm : o "mapping" = none) (hn : o "num_records" = some (.vInt nr)) :
    (o "batch_size" = none → nr ≤ 0 →
      init_options env o = .error (.taskOptionsError "Batch size should be greater than zero")) ∧
    (o "batch_size" = none → ∀ cfg, init_options env o = .ok cfg → cfg.batch_size = nr) ∧
    (∀ bs : Int, o "batch_size" = some (.vInt bs) → bs ≤ 0 →
      init_options env o = .error (.taskOptionsError "Batch size should be greater than zero")) ∧
    (∀ bs : Int, o "batch_size" = some (.vInt bs) → ∀ cfg, init_options env o = .ok cfg →
      cfg.batch_size = bs) := by
  refine ⟨?_, ?_, ?_, ?_⟩
  · intro hb hle
    exact (init_batch_core env o nr nr hm hn (by simp [parseBatchSize, hb])).1 hle
  · intro hb cfg hok
    exact (init_batch_core env o nr nr hm hn (by simp [parseBatchSize, hb])).2 cfg hok
  · intro bs hb hle
    exact (init_batch_core env o nr bs hm hn
      (by simp [parseBatchSize, hb, OptVal.toInt?])).1 hle
  · intro bs hb cfg hok
    exact (init_batch_core env o nr bs hm hn
      (by simp [parseBatchSize, hb, OptVal.toInt?])).2 cfg hok

/-- Options with `num_records` but no `batch_size`. -/
def demoNoBatchOptions : Options := fun k =>
  if k = "num_records" then some (.vInt 10)
  else if k = "data_generation_task" then some (.vStr "dummy_data_factory.GenerateDummyData")
  else none

theorem batch_size_defaulting_w :
    (demoNoBatchOptions "batch_size" = none → (10 : Int) ≤ 0 →
      init_options demoInitEnv demoNoBatchOptions =
        .error (.taskOptionsError "Batch size should be greater than zero")) ∧
    (demoNoBatchOptions "batch_size" = none →
      ∀ cfg, init_options demoInitEnv demoNoBatchOptions = .ok cfg → cfg.batch_size = 10) ∧
    (∀ bs : Int, demoNoBatchOptions "batch_size" = some (.vInt bs) → bs ≤ 0 →
      init_options demoInitEnv demoNoBatchOptions =
        .error (.taskOptionsError "Batch size should be greater than zero")) ∧
    (∀ bs : Int, demoNoBatchOptions "batch_size" = some (.vInt bs) →
      ∀ cfg, init_options demoInitEnv demoNoBatchOptions = .ok cfg → cfg.batch_size = bs) :=
  batch_size_defaulting demoInitEnv demoNoBatchOptions 10 rfl rfl

/-- Options with a negative `num_records` and a positive supplied
`batch_size`: a configuration the claim says setup must reject. -/
def cexOptions : Options := fun k =>
  if k = "num_records" then some (.vInt (-3))
  else if k = "batch_size" then some (.vInt 5)
  else if k = "data_generation_task" then some (.vStr "dummy_data_factory.GenerateDummyData")
  else none

/-- C8 counterexample: with `num_records` = -3 — not a positive integer — and
`batch_size` = 5 supplied, `_init_options` succeeds: no configuration error
is raised at setup, so the positivity of `num_records` is not validated. -/
theorem num_records_check_cex :
    init_options demoInitEnv cexOptions =
      .ok ⟨cexOptions, none, .vNone, -3, 5, .vNone⟩ ∧
    getOpt cexOptions "num_records" = .vInt (-3) ∧ ¬ (0 : Int) < -3 :=
  ⟨rfl, rfl, by decide⟩

/-- C8 amended: `num_records` must be coercible to an integer — an
uncoercible value fails at setup (with a `ValueError`, not a configuration
error) — but its positivity is only checked indirectly: when `batch_size` is
not supplied it defaults to `num_records` and a non-positive value then
raises the batch-size configuration error at setup, while a zero or negative
`num_records` together with a positive supplied `batch_size` passes setup
without any error. -/
theorem num_records_amended (env : InitEnv) :
    (∀ (o : Options) (s : String), o "mapping" = none →
      o "num_records" = some (.vStr s) → s.toInt? = none →
      init_options env o = .error .valueError) ∧
    (∀ (o : Options) (nr : Int), o "mapping" = none →
      o "num_records" = some (.vInt nr) → o "batch_size" = none → nr ≤ 0 →
      init_options env o = .error (.taskOptionsError "Batch size should be greater than zero")) ∧
    (∀ (o : Options) (nr bs : Int) (cp : String), o "mapping" = none →
      o "num_records" = some (.vInt nr) → o "batch_size" = some (.vInt bs) → 0 < bs →
      o "data_generation_task" = some (.vStr cp) → env.importOk cp = true →
      o "database_url" = none →
      init_options env o = .ok ⟨o, none, .vNone, nr, bs, getOpt o "debug_dir"⟩) := by
  refine ⟨?_, ?_, ?_⟩
  · intro o s hm hn hparse
    have hcm : checkMapping env o = .ok none := by
      simp [checkMapping, getOpt, hm, OptVal.truthy]
    have hpn : parseNumRecords o = .error .valueError := by
      simp [parseNumRecords, hn, OptVal.toInt?, hparse]
    simp only [init_options, hcm, hpn]
  · intro o nr hm hn hb hle
    exact (init_batch_core env o nr nr hm hn (by simp [parseBatchSize, hb])).1 hle
  · intro o nr bs cp hm hn hb hbpos hdg himp hdb
    have hcm : checkMapping env o = .ok none := by
      simp [checkMapping, getOpt, hm, OptVal.truthy]
    have hpn : parseNumRecords o = .ok nr := by
      simp [parseNumRecords, hn, OptVal.toInt?]
    have hpb : parseBatchSize o nr = .ok bs := by
      simp [parseBatchSize, hb, OptVal.toInt?]
    have hrt : resolveDataGenerationTask env o = .ok cp := by
      simp [resolveDataGenerationTask, getOpt, hdg, himp]
    have hdbv : getOpt o "database_url" = .vNone := by
      simp [getOpt, hdb]
    simp only [init_options, hcm, hpn, hpb, hrt, if_neg (not_le.mpr hbpos), hdbv,
      OptVal.truthy, Bool.false_eq_true, if_false]

theorem reflect_not_mem_cleanup (tables : List String) (u : String) :
    Event.reflect u ∉ cleanupEvents tables := by
  unfold cleanupEvents
  split
  · exact List.not_mem_nil _
  · simp

theorem generate_batch_reflect_url (opts : Options) (env : RunEnv) (db : OptVal)
    (tempdir : String) (mf : Option String) (s i : Nat) (u : String)
    (h : Event.reflect u ∈ (generate_batch opts env db tempdir mf s i).2) :
    u = resolve_database_url db tempdir := by
  rcases generate_batch_cases opts env db tempdir mf s i with hc | hc | hc | ⟨r, hc⟩ <;>
    rw [hc] at h
  · simpa using h
  · rcases List.mem_cons.mp h with h | h
    · simpa using h
    · exact absurd h (reflect_not_mem_cleanup _ _)
  · rcases List.mem_cons.mp h with h | h
    · simpa using h
    · rcases List.mem_append.mp h with h | h
      · exact absurd h (reflect_not_mem_cleanup _ _)
      · simp at h
  · rcases List.mem_cons.mp h with h | h
    · simpa using h
    · rcases List.mem_append.mp h with h | h
      · exact absurd h (reflect_not_mem_cleanup _ _)
      · simp at h

/-- C9: when the caller supplies no (truthy) `database_url`, the database URL
every batch of the run resolves to is the same file-backed SQLite locator
`sqlite:///<scoped dir>/generated_data.db` inside the run-scoped temporary
(or debug) directory: every reflection event of the whole run connects to
that one store, so it is reused across all batches rather than created per
batch. -/
theorem transient_store_reuse (cfg : Config) (env : RunEnv)
    (hdb : cfg.database_url.truthy = false) :
    resolve_database_url cfg.database_url (runTempdir cfg env) =
      "sqlite:///" ++ runTempdir cfg env ++ "/generated_data.db" ∧
    (∀ u, Event.reflect u ∈ (run_task cfg env).2 →
      u = "sqlite:///" ++ runTempdir cfg env ++ "/generated_data.db") := by
  have hres : resolve_database_url cfg.database_url (runTempdir cfg env) =
      "sqlite:///" ++ runTempdir cfg env ++ "/generated_data.db" := by
    unfold resolve_database_url
    simp [hdb]
  refine ⟨hres, fun u hu => ?_⟩
  rcases run_batches_mem _ _ _ _ _ _ _ hu with ⟨p, _, hmem⟩
  rw [generate_batch_reflect_url _ _ _ _ _ _ _ _ hmem]
  exact hres

/-- Configuration without a `database_url`, ten records in batches of four. -/
def demoConfig : Config where
  options := demoOptions
  mapping_file := none
  database_url := .vNone
  num_records := 10
  batch_size := 4
  debug_dir := .vNone

theorem transient_store_reuse_w :
    resolve_database_url demoConfig.database_url (runTempdir demoConfig demoEnv) =
      "sqlite:///" ++ runTempdir demoConfig demoEnv ++ "/generated_data.db" ∧
    (∀ u, Event.reflect u ∈ (run_task demoConfig demoEnv).2 →
      u = "sqlite:///" ++ runTempdir demoConfig demoEnv ++ "/generated_data.db") :=
  transient_store_reuse demoConfig demoEnv rfl

end GenerateAndLoadData
